import Mathlib

/-!
Verification of the goadb protocol layer and device-state watcher.

The Go package under verification exposes a device-state model
(`DeviceState`, `parseDeviceState`, `parseDeviceStates`), a roster differ
(`calculateStateDiffs`), a file-mode translator (`ParseFileModeFromAdb`),
sync-protocol primitives (`SendBytes`, `readStat`/`stat`), a host-protocol
error classifier (`adbServerError`) and an idempotent-close transport
wrapper (`MultiCloseable`).  Pure functions are embedded as Lean
functions; stateful close behaviour is embedded as explicit state
passing.  Go machine integers are embedded as `Nat`/`Int` (the enum
`DeviceState` is a Go `int8`, embedded as `Int`); Go's fallible
functions returning `(value, error)` pairs are embedded either as pairs
with an `Option Err` component or as `Except Err`.
-/

namespace Goadb

/-- The error-code taxonomy of the package's internal `errors` module. -/
inductive ErrCode where
  | AdbError
  | DeviceNotFound
  | ParseError
  | FileNoExistError
  | NetworkError
  | AssertionError
  | ConnectionResetError
  | ServerNotAvailable
  | CommandTimeout
  deriving DecidableEq, Repr

/-- The package's structured error value: a code from the taxonomy plus a
formatted message (`errors.Err` with its `Code` and `Message` fields). -/
structure Err where
  code : ErrCode
  message : String
  deriving DecidableEq, Repr

/-- Type `DeviceState` is declared in Go as `type DeviceState int8`; we embed the
underlying integer. -/
abbrev DeviceState := Int

/-- Constant `StateInvalid DeviceState = iota`: the first constant of the const
block, hence 0. -/
def StateInvalid : DeviceState := 0

/-- Second constant of the const block. -/
def StateUnauthorized : DeviceState := 1

/-- Third constant of the const block. -/
def StateDisconnected : DeviceState := 2

/-- Fourth constant of the const block. -/
def StateOffline : DeviceState := 3

/-- Fifth constant of the const block. -/
def StateOnline : DeviceState := 4

/-- Sixth constant of the const block. -/
def StateAuthorizing : DeviceState := 5

/-- Seventh constant of the const block. -/
def StateRecovery : DeviceState := 6

/-- The value a default-initialized (zero-valued) Go `DeviceState` variable
holds: Go zero-initializes every integer type to 0. -/
def deviceStateZeroValue : DeviceState := 0

/-- The `String()` method of `DeviceState`, case order as in the source. -/
def deviceStateGoString (s : DeviceState) : String :=
  if s = StateDisconnected then "Disconnected"
  else if s = StateOffline then "Offline"
  else if s = StateOnline then "Online"
  else if s = StateUnauthorized then "Unauthorized"
  else if s = StateAuthorizing then "Authorizing"
  else if s = StateRecovery then "Recovery"
  else if s = StateInvalid then "Invalid"
  else "Unknown"

/-- Go map lookup over a literal map of `String` keys to `DeviceState`
values, embedded as first-match search in an association list. -/
def mapLookup : List (String × DeviceState) → String → Option DeviceState
  | [], _ => none
  | (key, value) :: rest, s => if s = key then some value else mapLookup rest s

/-- The `deviceStateStrings` map literal from the source. -/
def deviceStateStrings : List (String × DeviceState) :=
  [("", StateDisconnected),
   ("offline", StateOffline),
   ("device", StateOnline),
   ("unauthorized", StateUnauthorized),
   ("authorizing", StateAuthorizing),
   ("recovery", StateRecovery)]

/-- Go's `%q` verb applied to one of the state names: the `String()` text
wrapped in double quotes (none of the names needs escaping). -/
def goQuote (s : String) : String := "\"" ++ s ++ "\""

/-- The message of the error built by `parseDeviceState` on an unknown
token: `errors.Errorf(errors.ParseError, "invalid device state: %q", state)`
where `state` is the zero value left by the failed map lookup. -/
def invalidDeviceStateMessage : String :=
  "invalid device state: " ++ goQuote (deviceStateGoString deviceStateZeroValue)

/-- Function `parseDeviceState` from the source: look the token up in
`deviceStateStrings`; on a miss return `StateInvalid` together with a
`ParseError` whose message interpolates the zero-valued `state` variable. -/
def parseDeviceState (str : String) : DeviceState × Option Err :=
  match mapLookup deviceStateStrings str with
  | some state => (state, none)
  | none => (StateInvalid, some ⟨ErrCode.ParseError, invalidDeviceStateMessage⟩)

/-- Predicate: `sub` occurs as a contiguous run at some position of `l`. -/
def listContainsSub (sub : List Char) : List Char → Bool
  | [] => sub.isEmpty
  | c :: rest => sub.isPrefixOf (c :: rest) || listContainsSub sub rest

/-- Go's `strings.Contains`: `sub` occurs as a contiguous substring of `s`
(case-sensitive), embedded over the character lists. -/
def goStringContains (s sub : String) : Bool :=
  listContainsSub sub.toList s.toList

/-- A `DeviceStateChangedEvent` as emitted by the watcher's differ. -/
structure DeviceStateChangedEvent where
  serial : String
  oldState : DeviceState
  newState : DeviceState
  deriving DecidableEq, Repr

/-- The serials of a roster (the key set of the Go map). -/
def rosterKeys (r : List (String × DeviceState)) : List String := r.map Prod.fst

/-- The state a roster ascribes to a serial, an absent serial being
`StateDisconnected`. -/
def lookupState (r : List (String × DeviceState)) (s : String) : DeviceState :=
  (mapLookup r s).getD StateDisconnected

/-- Modelled from the spec: `calculateStateDiffs` is not under `src/`
(only its tests are).  Spec §4.6 step 4: "Diff the newly decoded roster
against the previously retained roster: for every serial present in
either map with a different (or newly present/absent) state, emit one
event `{serial, old, new}` where an absent entry is treated as
`Disconnected`.  No event is emitted for an unchanged serial."  Rosters
are embedded as association lists with unique keys; the differ walks the
old roster and then the serials only present in the new roster, as the
event sets in the in-tree tests require. -/
def calculateStateDiffs (oldStates newStates : List (String × DeviceState)) :
    List DeviceStateChangedEvent :=
  (oldStates.filterMap fun p =>
    let ns := lookupState newStates p.1
    if p.2 ≠ ns then some ⟨p.1, p.2, ns⟩ else none)
  ++ (newStates.filterMap fun p =>
    match mapLookup oldStates p.1 with
    | some _ => none
    | none =>
      if StateDisconnected ≠ p.2 then some ⟨p.1, StateDisconnected, p.2⟩ else none)

/-- Go's `strings.Split` around a single-character separator, over the
character list: splits at every occurrence of `sep`, keeping empty
fields.  Always returns at least one field. -/
def splitOnChar (sep : Char) : List Char → List (List Char)
  | [] => [[]]
  | c :: rest =>
    match splitOnChar sep rest with
    | [] => if c = sep then [[], []] else [[c]]
    | cur :: parts =>
      if c = sep then [] :: cur :: parts else (c :: cur) :: parts

/-- Modelled from the spec: the roster decoder `parseDeviceStates` is not
under `src/` (only its tests are).  Spec §4.6 step 3: decode the message
line-by-line as `<serial>\t<stateString>`, blank lines ignored, a
malformed line (missing tab) failing the whole update with a `ParseError`
naming the offending line index and content; state tokens are decoded by
`parseDeviceState` (§4.5) and its failure likewise fails the update.
This loop carries the running line index `i` over the lines as character
lists. -/
def parseDeviceStatesLoop :
    Nat → List (List Char) → Except Err (List (String × DeviceState))
  | _, [] => Except.ok []
  | i, line :: rest =>
    if line = [] then parseDeviceStatesLoop (i + 1) rest
    else
      match splitOnChar '\t' line with
      | [serial, stateStr] =>
        match parseDeviceState (String.mk stateStr) with
        | (state, none) =>
          (parseDeviceStatesLoop (i + 1) rest).map
            fun states => (String.mk serial, state) :: states
        | (_, some e) => Except.error e
      | _ =>
        Except.error ⟨ErrCode.ParseError,
          "invalid device state line " ++ toString i ++ ": " ++ String.mk line⟩

/-- Modelled from the spec: whole-message roster decoding, splitting on
newlines (Go `strings.Split`). -/
def parseDeviceStates (msg : String) : Except Err (List (String × DeviceState)) :=
  parseDeviceStatesLoop 0 (splitOnChar '\n' msg.toList)

/-! ## File-mode translator -/

/-- The semantic file-type tags of the translator's output. -/
inductive FileType where
  | regular
  | directory
  | symlink
  | socket
  | charDevice
  | blockDevice
  | namedPipe
  deriving DecidableEq, Repr

/-- Semantic file mode: exactly one type tag plus the 9 permission bits. -/
structure FileModeSem where
  ftype : FileType
  perm : Nat
  deriving DecidableEq, Repr

/-- POSIX `S_IFDIR`. -/
def ModeDir : Nat := 0o040000

/-- POSIX `S_IFLNK`. -/
def ModeSymlink : Nat := 0o120000

/-- POSIX `S_IFSOCK`. -/
def ModeSocket : Nat := 0o140000

/-- POSIX `S_IFIFO`. -/
def ModeFifo : Nat := 0o010000

/-- POSIX `S_IFCHR`. -/
def ModeCharDevice : Nat := 0o020000

/-- POSIX `S_IFBLK`. -/
def ModeBlockDevice : Nat := 0o060000

/-- Modelled from the spec: `ParseFileModeFromAdb` is not under `src/`
(only its tests are).  Spec §4.3: "test file-type bit patterns in a fixed
precedence order — symlink, then directory, then socket, then
char-device, then block-device, then FIFO/named-pipe — and apply the
first one that matches the raw word's type field; if none match, treat as
a regular file ... Permission bits are always taken verbatim from the low
9 bits regardless of type."  A pattern matches when every one of its bits
is set in the raw word, the reading under which the in-tree precedence
tests (symlink over directory, directory over socket) come out as stated. -/
def ParseFileModeFromAdb (modeFromSync : Nat) : FileModeSem :=
  let t : FileType :=
    if modeFromSync &&& ModeSymlink = ModeSymlink then FileType.symlink
    else if modeFromSync &&& ModeDir = ModeDir then FileType.directory
    else if modeFromSync &&& ModeSocket = ModeSocket then FileType.socket
    else if modeFromSync &&& ModeCharDevice = ModeCharDevice then FileType.charDevice
    else if modeFromSync &&& ModeBlockDevice = ModeBlockDevice then FileType.blockDevice
    else if modeFromSync &&& ModeFifo = ModeFifo then FileType.namedPipe
    else FileType.regular
  ⟨t, modeFromSync % 512⟩

/-! ## Sync-protocol byte-blob primitive -/

/-- Constant `SyncMaxChunkSize` from `wire/sync_conn.go`: chunks cannot be longer
than 64k. -/
def SyncMaxChunkSize : Nat := 64 * 1024

/-- A 32-bit value encoded as 4 little-endian bytes. -/
def le32 (n : Nat) : List Nat :=
  [n % 256, n / 256 % 256, n / 65536 % 256, n / 16777216 % 256]

/-- Modelled from the spec: `SendBytes` of the sync sender is not under
`src/` (only its tests and the `SyncMaxChunkSize` constant are).  Spec
§4.2: "Send ... a length-prefixed byte blob with a hard cap of 64 KiB per
frame (`SyncMaxChunkSize`); attempting to send a larger blob in one frame
fails validation before any bytes are written."  The result is the
returned error, if any, together with the list of write calls issued to
the underlying transport (first the 4-byte little-endian length, then the
blob). -/
def SendBytes (data : List Nat) : Option Err × List (List Nat) :=
  if data.length > SyncMaxChunkSize then
    (some ⟨ErrCode.AssertionError, "data must be <= 65536 in length"⟩, [])
  else
    (none, [le32 data.length, data])

/-! ## Sync stat operation -/

/-- A directory entry as produced by the sync operations. -/
structure DirEntry where
  name : String
  mode : Nat
  size : Nat
  modifiedAt : Nat
  deriving DecidableEq, Repr

/-- Modelled from the spec: `readStat` is not under `src/` (only its
tests are).  Spec §4.4: "read back mode, size, mtime ...; if all three
are zero, fail with `FileNoExistError`; otherwise construct a `DirEntry`
with an empty name (stat does not return a name)." -/
def readStat (mode size mtime : Nat) : Except Err DirEntry :=
  if mode = 0 ∧ size = 0 ∧ mtime = 0 then
    Except.error ⟨ErrCode.FileNoExistError, "file does not exist"⟩
  else
    Except.ok ⟨"", mode, size, mtime⟩

/-- Modelled from the spec: `stat` sends `STAT` plus the length-prefixed
path and then decodes the fixed reply tuple via `readStat`; the sending
half is I/O and does not influence the decoded result, so the operation
is embedded as `readStat` applied to the reply tuple, keeping the path
argument of the source signature. -/
def stat (_path : String) (mode size mtime : Nat) : Except Err DirEntry :=
  readStat mode size mtime

/-! ## Host-protocol FAIL classifier -/

/-- A character list starts with a match of the pattern
`device( '.*')? not found`: either it starts with the literal
`device not found`, or it starts with `device '` and the rest contains
`' not found`. -/
def startsWithDeviceNotFound (l : List Char) : Bool :=
  "device not found".toList.isPrefixOf l ||
    ("device '".toList.isPrefixOf l &&
      listContainsSub "' not found".toList (l.drop 8))

/-- Unanchored search for the pattern `device( '.*')? not found`. -/
def deviceNotFoundMessageMatches : List Char → Bool
  | [] => false
  | c :: rest =>
    startsWithDeviceNotFound (c :: rest) || deviceNotFoundMessageMatches rest

/-- The server text matches the device-not-found message pattern. -/
def deviceNotFoundMatches (serverMsg : String) : Bool :=
  deviceNotFoundMessageMatches serverMsg.toList

/-- Modelled from the spec: `adbServerError` is not under `src/` (only
its tests are).  Spec §4.1: on FAIL the codec "fails with an `AdbError`
whose message is the decoded text, except that if the decoded text
contains the phrase 'device not found' (case-sensitive substring match)
the failure is reclassified as `DeviceNotFound`".  The in-tree tests pin
two refinements of that wording: the message format is
`server error: <text>` with no request and
`server error for <request> request: <text>` otherwise, and a decoded
text of the form `device '<serial>' not found` is also reclassified, so
the matcher is the unanchored pattern `device( '.*')? not found`. -/
def adbServerError (request serverMsg : String) : Err :=
  let msg : String :=
    if request = "" then "server error: " ++ serverMsg
    else "server error for " ++ request ++ " request: " ++ serverMsg
  if deviceNotFoundMatches serverMsg then
    ⟨ErrCode.DeviceNotFound, msg⟩
  else
    ⟨ErrCode.AdbError, msg⟩

/-! ## Idempotent-close wrapper -/

/-- The mutable state of a `MultiCloseable`-wrapped transport: whether the
underlying close already ran, the result it produced, and how many times
the underlying `Close` was invoked. -/
structure MultiCloseableState where
  closed : Bool
  savedErr : Option Err
  underlyingCloses : Nat
  deriving DecidableEq, Repr

/-- A freshly wrapped transport: not yet closed. -/
def multiCloseableInit : MultiCloseableState :=
  ⟨false, none, 0⟩

/-- Modelled from the spec: `MultiCloseable` is not under `src/` (only
its tests are).  Spec §3/§5: "closing releases both read and write ends
exactly once even if close is requested multiple times", "idempotent
close returning the first real error, if any, on every call".  One call
to `Close`: `underErr` is the result the wrapped transport's own `Close`
would return; the first call forwards to it and records the result, every
later call returns the recorded result without touching the transport. -/
def multiClose (underErr : Option Err) (st : MultiCloseableState) :
    Option Err × MultiCloseableState :=
  if st.closed then (st.savedErr, st)
  else (underErr, ⟨true, underErr, st.underlyingCloses + 1⟩)

/-- Run `n` successive `Close` calls on a freshly wrapped transport: the list
of returned results together with the final state. -/
def multiCloseRuns (underErr : Option Err) :
    Nat → List (Option Err) × MultiCloseableState
  | 0 => ([], multiCloseableInit)
  | n + 1 =>
    let (rs, st) := multiCloseRuns underErr n
    let (r, st') := multiClose underErr st
    (rs ++ [r], st')

/-! ## Helper lemmas about map lookup -/

theorem mapLookup_eq_some_of_mem {r : List (String × DeviceState)} {k : String}
    {v : DeviceState} (hnd : (rosterKeys r).Nodup) (hm : (k, v) ∈ r) :
    mapLookup r k = some v := by
  induction r with
  | nil => cases hm
  | cons p rest ih =>
    obtain ⟨key, value⟩ := p
    simp only [rosterKeys, List.map_cons, List.nodup_cons] at hnd
    rcases List.mem_cons.mp hm with h | h
    · simp only [Prod.mk.injEq] at h
      obtain ⟨rfl, rfl⟩ := h
      simp [mapLookup]
    · have hk : k ≠ key := by
        rintro rfl
        exact hnd.1 (by simpa [rosterKeys] using List.mem_map_of_mem Prod.fst h)
      simp only [mapLookup, if_neg hk]
      exact ih hnd.2 h

theorem mem_of_mapLookup_eq_some {r : List (String × DeviceState)} {k : String}
    {v : DeviceState} (h : mapLookup r k = some v) : (k, v) ∈ r := by
  induction r with
  | nil => simp [mapLookup] at h
  | cons p rest ih =>
    obtain ⟨key, value⟩ := p
    by_cases hk : k = key
    · subst hk
      simp only [mapLookup, if_true, Option.some.injEq, eq_self_iff_true] at h
      subst h
      exact List.mem_cons_self _ _
    · simp only [mapLookup, if_neg hk] at h
      exact List.mem_cons_of_mem _ (ih h)

theorem mapLookup_eq_none_iff {r : List (String × DeviceState)} {k : String} :
    mapLookup r k = none ↔ k ∉ rosterKeys r := by
  induction r with
  | nil => simp [mapLookup, rosterKeys]
  | cons p rest ih =>
    obtain ⟨key, value⟩ := p
    by_cases hk : k = key
    · subst hk
      simp [mapLookup, rosterKeys]
    · simp [mapLookup, rosterKeys, hk] at ih ⊢
      exact ih

/-- The six-token input alphabet of `parseDeviceState`. -/
def deviceStateAlphabet : List String :=
  ["", "offline", "device", "unauthorized", "authorizing", "recovery"]

theorem mapLookup_none_of_not_alphabet {s : String}
    (hs : s ∉ deviceStateAlphabet) :
    mapLookup deviceStateStrings s = none := by
  simp only [deviceStateAlphabet, List.mem_cons, List.not_mem_nil, or_false,
    not_or] at hs
  obtain ⟨h1, h2, h3, h4, h5, h6⟩ := hs
  simp [mapLookup, deviceStateStrings, h1, h2, h3, h4, h5, h6]

/-! ## C3 -/

/-- C3 counterexample: the claim says the default/zero value of
`DeviceState` equals `StateDisconnected`; in the source const block
`StateInvalid` is the first (`iota` = 0) constant while
`StateDisconnected` is the third, so the zero value is not
`StateDisconnected`. -/
theorem deviceState_zero_value_ne_disconnected :
    deviceStateZeroValue ≠ StateDisconnected := by
  decide

/-- C3 (amended): the default/zero value of the `DeviceState` enumeration
is `StateInvalid` (whose `String()` rendering is `Invalid`), not
`StateDisconnected`. -/
theorem deviceState_zero_value_eq_invalid :
    deviceStateZeroValue = StateInvalid ∧
      deviceStateGoString deviceStateZeroValue = "Invalid" := by
  exact ⟨rfl, by decide⟩

/-! ## C7 -/

/-- C7: `parseDeviceState` maps exactly the closed six-token alphabet,
each with no error; every other input yields `StateInvalid` together with
a non-nil `ParseError`; and `StateInvalid` is never returned with a nil
error. -/
theorem parseDeviceState_total_mapping :
    parseDeviceState "" = (StateDisconnected, none) ∧
    parseDeviceState "offline" = (StateOffline, none) ∧
    parseDeviceState "device" = (StateOnline, none) ∧
    parseDeviceState "unauthorized" = (StateUnauthorized, none) ∧
    parseDeviceState "authorizing" = (StateAuthorizing, none) ∧
    parseDeviceState "recovery" = (StateRecovery, none) ∧
    (∀ s : String, s ∉ deviceStateAlphabet →
      (parseDeviceState s).1 = StateInvalid ∧
        ∃ e, (parseDeviceState s).2 = some e ∧ e.code = ErrCode.ParseError) ∧
    (∀ s : String, (parseDeviceState s).2 = none →
      (parseDeviceState s).1 ≠ StateInvalid) := by
  refine ⟨by decide, by decide, by decide, by decide, by decide, by decide,
    ?_, ?_⟩
  · intro s hs
    have hnone := mapLookup_none_of_not_alphabet hs
    simp [parseDeviceState, hnone]
  · intro s h
    cases hl : mapLookup deviceStateStrings s with
    | none => simp [parseDeviceState, hl] at h
    | some st =>
      have hmem := mem_of_mapLookup_eq_some hl
      simp only [deviceStateStrings, List.mem_cons, List.not_mem_nil, or_false,
        Prod.mk.injEq] at hmem
      simp only [parseDeviceState, hl]
      rcases hmem with ⟨_, rfl⟩ | ⟨_, rfl⟩ | ⟨_, rfl⟩ | ⟨_, rfl⟩ | ⟨_, rfl⟩ |
        ⟨_, rfl⟩ <;> decide

/-- Instantiation of C7's theorem at the concrete invalid token `bogus`. -/
theorem parseDeviceState_total_mapping_witness :
    (parseDeviceState "bogus").1 = StateInvalid ∧
      ∃ e, (parseDeviceState "bogus").2 = some e ∧
        e.code = ErrCode.ParseError :=
  parseDeviceState_total_mapping.2.2.2.2.2.2.1 "bogus" (by decide)

/-! ## C10 -/

/-- C10 counterexample: `Invalid` is outside the six-token alphabet, so
the claim asserts its error message does not contain it — but the fixed
message `invalid device state: "Invalid"` does contain the rejected
input `Invalid` as a substring. -/
theorem parseDeviceState_message_counterexample :
    "Invalid" ∉ deviceStateAlphabet ∧
    (parseDeviceState "Invalid").2 =
      some ⟨ErrCode.ParseError, "invalid device state: \"Invalid\""⟩ ∧
    goStringContains "invalid device state: \"Invalid\"" "Invalid" = true := by
  exact ⟨by decide, by decide, by decide⟩

/-- C10 (amended): for every input outside the alphabet the returned
`ParseError` carries the identical message
`invalid device state: "Invalid"`, which interpolates the name of the
returned state value (the zero value left by the failed lookup) rather
than the offending input — so the rejected input occurs in the message
only when it happens to be a substring of that fixed text. -/
theorem parseDeviceState_fixed_message (s : String)
    (hs : s ∉ deviceStateAlphabet) :
    (parseDeviceState s).2 =
      some ⟨ErrCode.ParseError,
        "invalid device state: " ++
          goQuote (deviceStateGoString deviceStateZeroValue)⟩ ∧
    "invalid device state: " ++
        goQuote (deviceStateGoString deviceStateZeroValue) =
      "invalid device state: \"Invalid\"" := by
  have hnone := mapLookup_none_of_not_alphabet hs
  exact ⟨by simp [parseDeviceState, hnone, invalidDeviceStateMessage], by decide⟩

/-- Instantiation of C10's amended theorem at the concrete input `foo`. -/
theorem parseDeviceState_fixed_message_witness :
    (parseDeviceState "foo").2 =
      some ⟨ErrCode.ParseError,
        "invalid device state: " ++
          goQuote (deviceStateGoString deviceStateZeroValue)⟩ :=
  (parseDeviceState_fixed_message "foo" (by decide)).1

/-! ## C1 -/

/-- C1: over rosters with unique serials, `calculateStateDiffs` returns
exactly the events `{serial, old, new}` for the serials present in either
roster whose states (an absent serial counting as `StateDisconnected`)
differ: membership in the result is equivalent to that characterization,
so the result is determined up to order as a set and contains nothing for
unchanged serials. -/
theorem calculateStateDiffs_characterization
    (oldStates newStates : List (String × DeviceState))
    (hold : (rosterKeys oldStates).Nodup) (hnew : (rosterKeys newStates).Nodup)
    (e : DeviceStateChangedEvent) :
    e ∈ calculateStateDiffs oldStates newStates ↔
      ((e.serial ∈ rosterKeys oldStates ∨ e.serial ∈ rosterKeys newStates) ∧
        e.oldState = lookupState oldStates e.serial ∧
        e.newState = lookupState newStates e.serial ∧
        e.oldState ≠ e.newState) := by
  obtain ⟨s, os, ns⟩ := e
  simp only [calculateStateDiffs, List.mem_append, List.mem_filterMap]
  constructor
  · rintro (⟨⟨k, v⟩, hmem, hsome⟩ | ⟨⟨k, v⟩, hmem, hsome⟩)
    · by_cases hc : v ≠ lookupState newStates k
      · simp only [if_pos hc, Option.some.injEq,
          DeviceStateChangedEvent.mk.injEq] at hsome
        obtain ⟨rfl, rfl, rfl⟩ := hsome
        have hl := mapLookup_eq_some_of_mem hold hmem
        refine ⟨Or.inl (List.mem_map_of_mem Prod.fst hmem), ?_, rfl, hc⟩
        simp [lookupState, hl]
      · simp only [if_neg hc] at hsome
        cases hsome
    · cases hl : mapLookup oldStates k with
      | some w =>
        simp only [hl] at hsome
        exact Option.noConfusion hsome
      | none =>
        simp only [hl] at hsome
        by_cases hc : StateDisconnected ≠ v
        · simp only [if_pos hc, Option.some.injEq,
            DeviceStateChangedEvent.mk.injEq] at hsome
          obtain ⟨rfl, rfl, rfl⟩ := hsome
          have hl2 := mapLookup_eq_some_of_mem hnew hmem
          refine ⟨Or.inr (List.mem_map_of_mem Prod.fst hmem), ?_, ?_, hc⟩
          · simp [lookupState, hl]
          · simp [lookupState, hl2]
        · simp only [if_neg hc] at hsome
          cases hsome
  · rintro ⟨hser, hos, hns, hne⟩
    cases hl : mapLookup oldStates s with
    | some v =>
      left
      refine ⟨(s, v), mem_of_mapLookup_eq_some hl, ?_⟩
      have hv : os = v := by simpa [lookupState, hl] using hos
      subst hv
      rw [if_pos (by rw [← hns]; exact hne)]
      rw [← hns]
    | none =>
      right
      have hosd : os = StateDisconnected := by simpa [lookupState, hl] using hos
      subst hosd
      cases hl2 : mapLookup newStates s with
      | none =>
        exfalso
        have hd : ns = StateDisconnected := by simpa [lookupState, hl2] using hns
        exact hne hd.symm
      | some w =>
        have hw : ns = w := by simpa [lookupState, hl2] using hns
        subst hw
        refine ⟨(s, ns), mem_of_mapLookup_eq_some hl2, ?_⟩
        simp only [hl]
        rw [if_pos hne]

/-- Instantiation of C1's theorem: the diff of the two concrete rosters
from the in-tree multiple-changes test contains the event for serial 1. -/
theorem calculateStateDiffs_characterization_witness :
    (⟨"1", StateOffline, StateOnline⟩ : DeviceStateChangedEvent) ∈
      calculateStateDiffs [("1", StateOffline), ("2", StateOnline)]
        [("1", StateOnline), ("2", StateOffline)] :=
  (calculateStateDiffs_characterization
      [("1", StateOffline), ("2", StateOnline)]
      [("1", StateOnline), ("2", StateOffline)]
      (by decide) (by decide) _).mpr (by decide)

/-! ## C2 -/

/-- C2: for every 32-bit raw mode word the translator picks exactly one
type tag by first match in the precedence order symlink, directory,
socket, char-device, block-device, FIFO (each iff its bit pattern is
fully set and no earlier pattern is), falling back to regular file, and
the permission bits of the result are the low 9 bits of the raw word
verbatim. -/
theorem ParseFileModeFromAdb_characterization (m : Nat)
    (_hm : m < 4294967296) :
    (ParseFileModeFromAdb m).perm = m % 512 ∧
    ((ParseFileModeFromAdb m).ftype = FileType.symlink ↔
      m &&& ModeSymlink = ModeSymlink) ∧
    ((ParseFileModeFromAdb m).ftype = FileType.directory ↔
      (¬ m &&& ModeSymlink = ModeSymlink ∧ m &&& ModeDir = ModeDir)) ∧
    ((ParseFileModeFromAdb m).ftype = FileType.socket ↔
      (¬ m &&& ModeSymlink = ModeSymlink ∧ ¬ m &&& ModeDir = ModeDir ∧
        m &&& ModeSocket = ModeSocket)) ∧
    ((ParseFileModeFromAdb m).ftype = FileType.charDevice ↔
      (¬ m &&& ModeSymlink = ModeSymlink ∧ ¬ m &&& ModeDir = ModeDir ∧
        ¬ m &&& ModeSocket = ModeSocket ∧
        m &&& ModeCharDevice = ModeCharDevice)) ∧
    ((ParseFileModeFromAdb m).ftype = FileType.blockDevice ↔
      (¬ m &&& ModeSymlink = ModeSymlink ∧ ¬ m &&& ModeDir = ModeDir ∧
        ¬ m &&& ModeSocket = ModeSocket ∧
        ¬ m &&& ModeCharDevice = ModeCharDevice ∧
        m &&& ModeBlockDevice = ModeBlockDevice)) ∧
    ((ParseFileModeFromAdb m).ftype = FileType.namedPipe ↔
      (¬ m &&& ModeSymlink = ModeSymlink ∧ ¬ m &&& ModeDir = ModeDir ∧
        ¬ m &&& ModeSocket = ModeSocket ∧
        ¬ m &&& ModeCharDevice = ModeCharDevice ∧
        ¬ m &&& ModeBlockDevice = ModeBlockDevice ∧
        m &&& ModeFifo = ModeFifo)) ∧
    ((ParseFileModeFromAdb m).ftype = FileType.regular ↔
      (¬ m &&& ModeSymlink = ModeSymlink ∧ ¬ m &&& ModeDir = ModeDir ∧
        ¬ m &&& ModeSocket = ModeSocket ∧
        ¬ m &&& ModeCharDevice = ModeCharDevice ∧
        ¬ m &&& ModeBlockDevice = ModeBlockDevice ∧
        ¬ m &&& ModeFifo = ModeFifo)) := by
  simp only [ParseFileModeFromAdb]
  split_ifs with h1 h2 h3 h4 h5 h6 <;> simp_all

/-- Instantiation of C2's theorem at the precedence test words: symlink
bit plus directory bit yields symlink, directory bit plus socket bit
yields directory, and the permissions are the low 9 bits. -/
theorem ParseFileModeFromAdb_witness :
    (ParseFileModeFromAdb 0o160755).ftype = FileType.symlink ∧
    (ParseFileModeFromAdb 0o140755).ftype = FileType.directory ∧
    (ParseFileModeFromAdb 0o160755).perm = 0o755 :=
  ⟨(ParseFileModeFromAdb_characterization 0o160755 (by decide)).2.1.mpr
      (by decide),
   (ParseFileModeFromAdb_characterization 0o140755 (by decide)).2.2.1.mpr
      (by decide),
   (ParseFileModeFromAdb_characterization 0o160755 (by decide)).1⟩

/-! ## C4 -/

/-- C4: for every path, an all-zero `(mode, size, mtime)` stat reply
fails with `FileNoExistError` (so no entry is returned), a non-all-zero
reply yields a `DirEntry` with exactly that mode, size and mtime and an
empty name, and no reply ever yields the zero-valued `DirEntry`. -/
theorem stat_reply_tuple (path : String) (mode size mtime : Nat) :
    ((mode = 0 ∧ size = 0 ∧ mtime = 0) →
      stat path mode size mtime =
        Except.error ⟨ErrCode.FileNoExistError, "file does not exist"⟩) ∧
    (¬ (mode = 0 ∧ size = 0 ∧ mtime = 0) →
      stat path mode size mtime = Except.ok ⟨"", mode, size, mtime⟩) ∧
    stat path mode size mtime ≠
      Except.ok (⟨"", 0, 0, 0⟩ : DirEntry) := by
  unfold stat readStat
  by_cases h : mode = 0 ∧ size = 0 ∧ mtime = 0
  · simp [h]
  · simp only [if_neg h]
    refine ⟨fun hc => absurd hc h, fun _ => trivial, fun hc => ?_⟩
    simp only [Except.ok.injEq, DirEntry.mk.injEq] at hc
    exact h ⟨hc.2.1, hc.2.2.1, hc.2.2.2⟩

/-- Instantiation of C4's theorem: the all-zero reply for a missing path
and the reply from the in-tree valid-stat test. -/
theorem stat_reply_tuple_witness :
    stat "/nonexistent" 0 0 0 =
      Except.error ⟨ErrCode.FileNoExistError, "file does not exist"⟩ ∧
    stat "/thing" 0o777 4 1430640488 =
      Except.ok ⟨"", 0o777, 4, 1430640488⟩ :=
  ⟨(stat_reply_tuple "/nonexistent" 0 0 0).1 (by decide),
   (stat_reply_tuple "/thing" 0o777 4 1430640488).2.1 (by decide)⟩

/-! ## C5 -/

/-- C5: `SyncMaxChunkSize` is 64 KiB; sending a blob strictly larger than
that fails validation with zero write calls performed, and sending a blob
of at most that size performs exactly the two writes: the 4-byte
little-endian length, then the blob. -/
theorem SendBytes_validation (data : List Nat) :
    SyncMaxChunkSize = 65536 ∧
    (data.length > SyncMaxChunkSize →
      SendBytes data =
        (some ⟨ErrCode.AssertionError, "data must be <= 65536 in length"⟩,
          [])) ∧
    (data.length ≤ SyncMaxChunkSize →
      SendBytes data = (none, [le32 data.length, data])) := by
  refine ⟨rfl, fun h => ?_, fun h => ?_⟩
  · simp [SendBytes, h]
  · simp [SendBytes, Nat.not_lt.mpr h]

/-- Instantiation of C5's theorem at a 65537-byte blob (no writes, an
error) and at a 1-byte blob (length header then payload). -/
theorem SendBytes_validation_witness :
    SendBytes (List.replicate 65537 0) =
      (some ⟨ErrCode.AssertionError, "data must be <= 65536 in length"⟩,
        []) ∧
    SendBytes [7] = (none, [[1, 0, 0, 0], [7]]) :=
  ⟨(SendBytes_validation (List.replicate 65537 0)).2.1
      (by rw [List.length_replicate]; decide),
   (SendBytes_validation [7]).2.2 (by decide)⟩

/-! ## C6 -/

/-- Any occurrence of the literal substring `device not found` is an
occurrence of the pattern `device( '.*')? not found`. -/
theorem matches_of_containsSub {l : List Char}
    (h : listContainsSub "device not found".toList l = true) :
    deviceNotFoundMessageMatches l = true := by
  induction l with
  | nil => exact absurd h (by decide)
  | cons c rest ih =>
    simp only [listContainsSub, Bool.or_eq_true] at h
    rcases h with h | h
    · have hs : startsWithDeviceNotFound (c :: rest) = true := by
        unfold startsWithDeviceNotFound
        rw [h]
        rfl
      simp only [deviceNotFoundMessageMatches, hs, Bool.true_or]
    · simp only [deviceNotFoundMessageMatches, ih h, Bool.or_true]

/-- C6 counterexample: the decoded text `device 'serial123' not found`
does not contain the substring `device not found`, so the claim's
classifier would leave it an `AdbError`; the classifier pinned by the
in-tree tests reclassifies it as `DeviceNotFound`, and even the plain
`some error` case carries the message `server error for <req> request:
<text>` rather than the decoded text itself. -/
theorem adbServerError_counterexample :
    goStringContains "device 'serial123' not found" "device not found" =
      false ∧
    (adbServerError "test-request" "device 'serial123' not found").code =
      ErrCode.DeviceNotFound ∧
    (adbServerError "test-request" "device 'serial123' not found").code ≠
      ErrCode.AdbError ∧
    (adbServerError "" "some error").message ≠ "some error" := by
  exact ⟨by decide, by decide, by decide, by decide⟩

/-- C6 (amended): a FAIL reply yields an error whose message is
`server error: <text>` (or `server error for <request> request: <text>`
with a request) embedding the decoded text, classified `DeviceNotFound`
exactly when the decoded text matches the pattern
`device( '.*')? not found` and `AdbError` (the two codes being mutually
exclusive) otherwise; in particular every text containing the substring
`device not found` is classified `DeviceNotFound`. -/
theorem adbServerError_classification (request serverMsg : String) :
    ((adbServerError request serverMsg).message =
      if request = "" then "server error: " ++ serverMsg
      else "server error for " ++ request ++ " request: " ++ serverMsg) ∧
    ((adbServerError request serverMsg).code = ErrCode.DeviceNotFound ↔
      deviceNotFoundMatches serverMsg = true) ∧
    ((adbServerError request serverMsg).code = ErrCode.AdbError ↔
      ¬ deviceNotFoundMatches serverMsg = true) ∧
    (goStringContains serverMsg "device not found" = true →
      (adbServerError request serverMsg).code = ErrCode.DeviceNotFound) := by
  by_cases h : deviceNotFoundMatches serverMsg
  · simp [adbServerError, h]
  · simp only [adbServerError, h, if_false, Bool.false_eq_true, iff_false,
      iff_true, not_false_iff]
    refine ⟨trivial, by simp, by simp, fun hc => ?_⟩
    exact absurd (matches_of_containsSub hc) (by simpa [deviceNotFoundMatches]
      using h)

/-- Instantiation of C6's amended theorem at the decoded text
`device not found`, discharging the substring hypothesis. -/
theorem adbServerError_classification_witness :
    (adbServerError "test-request" "device not found").code =
      ErrCode.DeviceNotFound :=
  (adbServerError_classification "test-request" "device not found").2.2.2
    (by decide)

/-! ## C8 -/

/-- A roster line that is malformed in the claim's sense: non-blank with
no tab separator (Go: `strings.Split` on tab yields a single field). -/
abbrev lineMalformed (line : List Char) : Prop :=
  line ≠ [] ∧ (splitOnChar '\t' line).length ≠ 2

/-- A roster line the decoder passes over without failing: blank, or a
serial and a valid state token separated by one tab. -/
def lineWellFormed (line : List Char) : Prop :=
  line = [] ∨ ∃ a b, splitOnChar '\t' line = [a, b] ∧
    (parseDeviceState (String.mk b)).2 = none

/-- Every error produced by `parseDeviceState` is a `ParseError`. -/
theorem parseDeviceState_error_code {s : String} {e : Err}
    (h : (parseDeviceState s).2 = some e) : e.code = ErrCode.ParseError := by
  cases hl : mapLookup deviceStateStrings s with
  | none =>
    simp only [parseDeviceState, hl, Option.some.injEq] at h
    rw [← h]
  | some st => simp [parseDeviceState, hl] at h

/-- If any line of the suffix is malformed, the decode loop fails with a
`ParseError`, whatever else the suffix contains. -/
theorem parseDeviceStatesLoop_error_of_malformed
    (i : Nat) (lines : List (List Char))
    (hbad : ∃ l ∈ lines, lineMalformed l) :
    ∃ e, parseDeviceStatesLoop i lines = Except.error e ∧
      e.code = ErrCode.ParseError := by
  induction lines generalizing i with
  | nil => simp at hbad
  | cons line rest ih =>
    by_cases hblank : line = []
    · subst hblank
      have hrest : ∃ l ∈ rest, lineMalformed l := by
        rcases hbad with ⟨l, hl, hml⟩
        rcases List.mem_cons.mp hl with rfl | hl
        · exact absurd rfl hml.1
        · exact ⟨l, hl, hml⟩
      simpa [parseDeviceStatesLoop] using ih (i + 1) hrest
    · rw [parseDeviceStatesLoop, if_neg hblank]
      rcases hsp : splitOnChar '\t' line with _ | ⟨a, _ | ⟨b, _ | ⟨c, t⟩⟩⟩
      · exact ⟨_, rfl, rfl⟩
      · exact ⟨_, rfl, rfl⟩
      · -- exactly two fields: the line is not malformed, so the bad line
        -- is in the tail; the head either fails with its own ParseError
        -- or the loop recurses
        have hrest : ∃ l ∈ rest, lineMalformed l := by
          rcases hbad with ⟨l, hl, hml⟩
          rcases List.mem_cons.mp hl with rfl | hl
          · exact absurd (by rw [hsp]; rfl) hml.2
          · exact ⟨l, hl, hml⟩
        dsimp only
        cases hps : parseDeviceState (String.mk b) with
        | mk st err =>
          cases err with
          | none =>
            obtain ⟨e, he, hcode⟩ := ih (i + 1) hrest
            exact ⟨e, by simp [he, Except.map], hcode⟩
          | some e =>
            refine ⟨e, by rfl, ?_⟩
            exact parseDeviceState_error_code (by rw [hps])
      · exact ⟨_, rfl, rfl⟩

/-- If every line before `bad` is well formed and `bad` is malformed, the
decode loop fails with the `ParseError` naming the index and content of
`bad`. -/
theorem parseDeviceStatesLoop_first_malformed
    (pre : List (List Char)) (bad : List Char) (rest : List (List Char))
    (i : Nat) (hpre : ∀ l ∈ pre, lineWellFormed l) (hbad : lineMalformed bad) :
    parseDeviceStatesLoop i (pre ++ bad :: rest) =
      Except.error ⟨ErrCode.ParseError,
        "invalid device state line " ++ toString (i + pre.length) ++ ": " ++
          String.mk bad⟩ := by
  induction pre generalizing i with
  | nil =>
    simp only [List.nil_append, List.length_nil, Nat.add_zero]
    rw [parseDeviceStatesLoop, if_neg hbad.1]
    rcases hsp : splitOnChar '\t' bad with _ | ⟨a, _ | ⟨b, _ | ⟨c, t⟩⟩⟩
    · rfl
    · rfl
    · exact absurd (by rw [hsp]; rfl) hbad.2
    · rfl
  | cons l pre' ih =>
    have hwf := hpre l (List.mem_cons_self l pre')
    have hpre' : ∀ x ∈ pre', lineWellFormed x :=
      fun x hx => hpre x (List.mem_cons_of_mem _ hx)
    have hidx : i + 1 + pre'.length = i + (l :: pre').length := by
      simp [List.length_cons]
      omega
    have h2 := ih (i + 1) hpre'
    rw [hidx] at h2
    rcases hwf with rfl | ⟨a, b, hsp, hok⟩
    · simpa [parseDeviceStatesLoop] using h2
    · have hbl : l ≠ [] := by
        rintro rfl
        simp [splitOnChar] at hsp
      rw [List.cons_append, parseDeviceStatesLoop, if_neg hbl, hsp]
      dsimp only
      cases hps : parseDeviceState (String.mk b) with
      | mk st err =>
        have : err = none := by rw [← hok, hps]
        subst this
        simp [h2, Except.map]

/-- C8 (amended): a roster message containing a malformed line (non-blank,
no tab) always fails wholesale with a `ParseError`, returning no partial
roster; when every line before the malformed one is blank or decodes (tab
plus valid state token), that `ParseError` names the malformed line's
index and content — an invalid state token on an earlier line also fails
the whole update with a `ParseError`, but one naming the invalid token
instead of the malformed line. -/
theorem parseDeviceStates_malformed (msg : String)
    (pre : List (List Char)) (bad : List Char) (rest : List (List Char))
    (hsplit : splitOnChar '\n' msg.toList = pre ++ bad :: rest)
    (hbad : lineMalformed bad) :
    (∃ e, parseDeviceStates msg = Except.error e ∧
      e.code = ErrCode.ParseError) ∧
    ((∀ l ∈ pre, lineWellFormed l) →
      parseDeviceStates msg =
        Except.error ⟨ErrCode.ParseError,
          "invalid device state line " ++ toString pre.length ++ ": " ++
            String.mk bad⟩) := by
  constructor
  · unfold parseDeviceStates
    rw [hsplit]
    exact parseDeviceStatesLoop_error_of_malformed 0 _ ⟨bad, by simp, hbad⟩
  · intro hpre
    unfold parseDeviceStates
    rw [hsplit]
    simpa using parseDeviceStatesLoop_first_malformed pre bad rest 0 hpre hbad

/-- Instantiation of C8's amended theorem at the in-tree malformed-roster
test message, reproducing the expected error text. -/
theorem parseDeviceStates_malformed_witness :
    parseDeviceStates "192.168.56.101:5555\toffline\n0x0x0x0x\n" =
      Except.error ⟨ErrCode.ParseError,
        "invalid device state line 1: 0x0x0x0x"⟩ := by
  have h := (parseDeviceStates_malformed
    "192.168.56.101:5555\toffline\n0x0x0x0x\n"
    ["192.168.56.101:5555\toffline".toList] "0x0x0x0x".toList [[]]
    (by decide) (by decide)).2 ?wf
  case wf =>
    intro l hl
    rcases List.mem_cons.mp hl with rfl | hl
    · exact Or.inr ⟨"192.168.56.101:5555".toList, "offline".toList,
        by decide, by decide⟩
    · simp at hl
  simpa using h

/-- C8 counterexample: the message `a\tbogus\nmalformed` contains the
malformed line `malformed`, yet the decoder's `ParseError` is the
invalid-state error for the earlier token `bogus`; its fixed message does
not mention the malformed line's content (nor its index). -/
theorem parseDeviceStates_counterexample :
    lineMalformed "malformed".toList ∧
    parseDeviceStates "a\tbogus\nmalformed" =
      Except.error ⟨ErrCode.ParseError,
        "invalid device state: \"Invalid\""⟩ ∧
    goStringContains "invalid device state: \"Invalid\"" "malformed" =
      false := by
  exact ⟨by decide, by rfl, by decide⟩

/-! ## C9 -/

/-- After `n + 1` close calls the wrapper state is closed with one
underlying close recorded, and all `n + 1` calls returned the underlying
close's result. -/
theorem multiCloseRuns_succ (u : Option Err) (n : Nat) :
    multiCloseRuns u (n + 1) =
      (List.replicate (n + 1) u, ⟨true, u, 1⟩) := by
  induction n with
  | zero => rfl
  | succ k ih =>
    rw [multiCloseRuns, ih]
    simp [multiClose, List.replicate_succ']

/-- C9: for every sequence of `n ≥ 1` close calls on a wrapped transport,
the underlying close runs exactly once and every call returns the result
of that first underlying close. -/
theorem multiCloseable_idempotent (u : Option Err) (n : Nat) (h : 1 ≤ n) :
    (multiCloseRuns u n).2.underlyingCloses = 1 ∧
    (multiCloseRuns u n).1 = List.replicate n u := by
  obtain ⟨k, rfl⟩ : ∃ k, n = k + 1 := ⟨n - 1, by omega⟩
  rw [multiCloseRuns_succ]
  exact ⟨rfl, rfl⟩

/-- Instantiation of C9's theorem: three close calls against a transport
whose close fails with a mock error. -/
theorem multiCloseable_idempotent_witness :
    (multiCloseRuns (some ⟨ErrCode.NetworkError, "mock close error"⟩)
        3).2.underlyingCloses = 1 ∧
    (multiCloseRuns (some ⟨ErrCode.NetworkError, "mock close error"⟩)
        3).1 =
      List.replicate 3 (some ⟨ErrCode.NetworkError, "mock close error"⟩) :=
  multiCloseable_idempotent (some ⟨ErrCode.NetworkError, "mock close error"⟩)
    3 (by decide)

end Goadb
